import Mathlib

/-!
Verification of the spicedb-kubeapi-proxy-integration service.

The development shallowly embeds the Go sources of the service:
the HTTP authenticator (pkg/auth), the demo HTTP server handlers
(pkg/server), and the authorization-rule configuration installed into the
embedded spicedb-kubeapi-proxy (pkg/proxy, function NewSpiceDBKubeProxy).
External collaborators (the Kubernetes TokenReview / SubjectAccessReview
APIs, the backend resource store, and the permission-graph service) are
modelled as explicit oracle parameters.  Components whose executable code
lives in the external spicedb-kubeapi-proxy library (rule matching,
dispatching, the transaction coordinator, the list/watch filterers and the
template engine) are modelled from the specification and are marked
`Modelled from the spec:` in their doc comments.

String processing is embedded at the level of character lists so that all
definitions are executable and kernel-decidable.
-/

namespace SpicedbProxyIntegration

/-- Splits a character list at every occurrence of the separator character,
mirroring Go `strings.Split` with a single-character separator: the result
always has one more element than there are separators, and empty pieces are
kept. -/
def splitOnChar (c : Char) : List Char → List (List Char)
  | [] => [[]]
  | x :: xs =>
    match splitOnChar c xs with
    | [] => [[]]
    | y :: ys => if x = c then [] :: y :: ys else (x :: y) :: ys

/-- Tests whether the first character list is a leading segment of the
second, mirroring Go `strings.HasPrefix`. -/
def charsStartWith : List Char → List Char → Bool
  | [], _ => true
  | _ :: _, [] => false
  | p :: ps, c :: cs => p == c && charsStartWith ps cs

/-- Rebuilds a string from its character list; inverse of `String.data`. -/
theorem stringMkData (s : String) : String.mk s.data = s := by
  cases s
  rfl

/-- Go `sanitizeUserName` from the server package: for user names of the
form `system:serviceaccount:<namespace>:<name>` it returns just the
service-account name (the fourth colon-separated segment); every other
user name is returned as-is. -/
def sanitizeUserName (userName : String) : String :=
  if charsStartWith "system:serviceaccount:".data userName.data then
    let parts := splitOnChar ':' userName.data
    if 4 ≤ parts.length then String.mk (parts.getD 3 []) else userName
  else userName

/-- Go `UserInfo` from pkg/auth: authenticated user identity. -/
structure UserInfo where
  username : String
  groups : List String
  uid : String
deriving DecidableEq

/-- Go `AuthenticationResult` from pkg/auth; the `error` field models the
Go error value as an optional message string. -/
structure AuthenticationResult where
  authenticated : Bool
  user : Option UserInfo
  error : Option String
deriving DecidableEq

/-- Outcome of the external Kubernetes TokenReview call made by
`authenticateToken`: the call itself can fail, the token can be rejected,
or the token resolves to a user. -/
inductive TokenReviewOutcome where
  | reviewError (msg : String)
  | rejected (statusError : String)
  | ok (user : UserInfo)
deriving DecidableEq

/-- Go `authenticateToken` from pkg/auth: validates a bearer token via the
TokenReview API (here an oracle from tokens to outcomes). -/
def authenticateToken (review : String → TokenReviewOutcome) (token : String) :
    AuthenticationResult :=
  match review token with
  | .reviewError msg => ⟨false, none, some ("token review failed: " ++ msg)⟩
  | .rejected e => ⟨false, none, some ("token authentication failed: " ++ e)⟩
  | .ok u => ⟨true, some u, none⟩

/-- Client certificate data used by pkg/auth: the subject common name and
organization fields. -/
structure Certificate where
  commonName : String
  organization : List String
deriving DecidableEq

/-- Go `authenticateCertificate` from pkg/auth, applied to the first peer
certificate: the common name becomes user name and UID, the organization
fields become the groups. -/
def authenticateCertificate (cert : Certificate) : AuthenticationResult :=
  if cert.commonName = "" then
    ⟨false, none, some "no common name in client certificate"⟩
  else
    ⟨true, some ⟨cert.commonName, cert.organization, cert.commonName⟩, none⟩

/-- Inbound HTTP request as seen by `AuthenticateRequest`: header lookups
return the empty string when the header is absent (Go `Header.Get`), and
`tlsPeerCertificates` is `none` when the request carries no TLS state. -/
structure HttpRequest where
  authorizationHeader : String
  tlsPeerCertificates : Option (List Certificate)
  xRemoteUser : String
  xRemoteGroups : String
deriving DecidableEq

/-- Go `AuthenticateRequest` from pkg/auth: tries bearer-token, client
certificate, and X-Remote-User header authentication, in that order. -/
def authenticateRequest (review : String → TokenReviewOutcome)
    (r : HttpRequest) : AuthenticationResult :=
  if r.authorizationHeader ≠ "" ∧
      charsStartWith "Bearer ".data r.authorizationHeader.data then
    authenticateToken review (String.mk (r.authorizationHeader.data.drop 7))
  else
    match r.tlsPeerCertificates with
    | some (cert :: _) => authenticateCertificate cert
    | _ =>
      if r.xRemoteUser ≠ "" then
        ⟨true,
         some ⟨r.xRemoteUser,
               (splitOnChar ',' r.xRemoteGroups.data).map String.mk,
               r.xRemoteUser⟩,
         none⟩
      else
        ⟨false, none, some "no valid authentication method found"⟩

/-- Go `api.CreateNamespaceRequest` from pkg/api: body of the
namespace-create endpoint; the single JSON field is `namespace`. -/
structure CreateNamespaceRequest where
  namespaceName : String
deriving DecidableEq

/-- Go `api.Response` from pkg/api: the JSON reply of the demo endpoints.
The `data` field is modelled as an optional association list of the string
pairs the handler puts into its map. -/
structure ApiResponse where
  success : Bool
  error : String
  data : Option (List (String × String))
deriving DecidableEq

/-- Inputs of the POST /api/namespaces/create handler in pkg/server
`NewServer`, with every external call pre-resolved to its outcome:
`authResult` is AuthenticateFromRequest, `decodedBody` is the JSON decode
of the request body (`none` on a decode error), `rbacResult` is
CheckKubernetesPermission for (namespaces, create), and `backendResult` is
what CreateNamespaceAsUser would return if invoked. -/
structure CreateNsInput where
  authResult : Except String UserInfo
  decodedBody : Option CreateNamespaceRequest
  rbacResult : Except String Bool
  backendResult : Except String Unit

/-- Result of one run of the namespace-create handler: the JSON response
written, and the argument pair (sanitized user name, namespace) of the
CreateNamespaceAsUser call when that call was made. -/
structure CreateNsOutput where
  response : ApiResponse
  backendCall : Option (String × String)
deriving DecidableEq

/-- Go handler for POST /api/namespaces/create from pkg/server `NewServer`
(the variant that sanitizes the user name before backend calls): the gates
run in order — authentication, JSON decoding, non-empty namespace,
Kubernetes RBAC — and each failing gate writes a Success=false response
and returns without calling CreateNamespaceAsUser. -/
def handleCreateNamespace (inp : CreateNsInput) : CreateNsOutput :=
  match inp.authResult with
  | .error e => ⟨⟨false, "Authentication failed: " ++ e, none⟩, none⟩
  | .ok user =>
    match inp.decodedBody with
    | none => ⟨⟨false, "Invalid JSON", none⟩, none⟩
    | some req =>
      if req.namespaceName = "" then
        ⟨⟨false, "Namespace is required", none⟩, none⟩
      else
        match inp.rbacResult with
        | .error e => ⟨⟨false, "Permission check failed: " ++ e, none⟩, none⟩
        | .ok false =>
          ⟨⟨false, "User does not have permission to create namespaces", none⟩,
           none⟩
        | .ok true =>
          match inp.backendResult with
          | .error e =>
            ⟨⟨false, e, none⟩,
             some (sanitizeUserName user.username, req.namespaceName)⟩
          | .ok _ =>
            ⟨⟨true, "",
              some [("namespace", req.namespaceName),
                    ("user", sanitizeUserName user.username)]⟩,
             some (sanitizeUserName user.username, req.namespaceName)⟩

/-- Go `proxyrule.Match`: one match clause of an authorization rule —
group/version, resource plural name, and the verbs it covers. -/
structure RuleMatch where
  groupVersion : String
  resource : String
  verbs : List String
deriving DecidableEq

/-- Template strings are kept verbatim as configured (Go
`proxyrule.StringOrTemplate` with the `Template` field). -/
abbrev TemplateString := String

/-- Go `proxyrule.PreFilter`: the object-id source expression and the
lookup template used to narrow list requests. -/
structure PreFilterSpec where
  fromObjectIDNameExpr : String
  lookupMatchingResources : TemplateString
deriving DecidableEq

/-- Go `proxyrule.Update`: relationship templates applied on a successful
mutation (only `CreateRelationships` is used by this configuration). -/
structure UpdateSpec where
  createRelationships : List TemplateString
deriving DecidableEq

/-- Go `proxyrule.Spec`: one authorization rule — match clauses, check
templates, pre-filters, and update templates. -/
structure RuleSpec where
  matchClauses : List RuleMatch
  checks : List TemplateString
  preFilters : List PreFilterSpec
  update : UpdateSpec
deriving DecidableEq

/-- First rule configured in `NewSpiceDBKubeProxy` (pkg/proxy): namespace
create writes a creator relationship. Template strings are verbatim from
the source; `\x7b` and `\x7d` denote the literal brace characters of the
Go strings. -/
def nsCreateRule : RuleSpec :=
  ⟨[⟨"v1", "namespaces", ["create"]⟩], [], [],
   ⟨["namespace:\x7b\x7bname\x7d\x7d#creator@user:\x7b\x7buser.name\x7d\x7d"]⟩⟩

/-- Second configured rule: namespace get checks the view permission. -/
def nsGetRule : RuleSpec :=
  ⟨[⟨"v1", "namespaces", ["get"]⟩],
   ["namespace:\x7b\x7bname\x7d\x7d#view@user:\x7b\x7buser.name\x7d\x7d"],
   [], ⟨[]⟩⟩

/-- Third configured rule: namespace list is pre-filtered by a view
lookup. -/
def nsListRule : RuleSpec :=
  ⟨[⟨"v1", "namespaces", ["list"]⟩], [],
   [⟨"\x7b\x7bresourceId\x7d\x7d",
     "namespace:$#view@user:\x7b\x7buser.name\x7d\x7d"⟩],
   ⟨[]⟩⟩

/-- Fourth configured rule: pod create writes creator and namespace
relationships. -/
def podCreateRule : RuleSpec :=
  ⟨[⟨"v1", "pods", ["create"]⟩], [], [],
   ⟨["pod:\x7b\x7bname\x7d\x7d#creator@user:\x7b\x7buser.name\x7d\x7d",
     "pod:\x7b\x7bname\x7d\x7d#namespace@namespace:\x7b\x7bnamespace\x7d\x7d"]⟩⟩

/-- Fifth configured rule: pod get/list/delete check the edit
permission. -/
def podReadDeleteRule : RuleSpec :=
  ⟨[⟨"v1", "pods", ["get", "list", "delete"]⟩],
   ["pod:\x7b\x7bname\x7d\x7d#edit@user:\x7b\x7buser.name\x7d\x7d"],
   [], ⟨[]⟩⟩

/-- Rule table configured in `NewSpiceDBKubeProxy` (pkg/proxy), in source
order: namespaces with verbs create/get/list and pods with verbs
create/get/list/delete. -/
def ruleConfigs : List RuleSpec :=
  [nsCreateRule, nsGetRule, nsListRule, podCreateRule, podReadDeleteRule]

/-- Placeholders that occur in the configured relationship templates:
`\x7b\x7bname\x7d\x7d`, `\x7b\x7bnamespace\x7d\x7d`,
`\x7b\x7buser.name\x7d\x7d` and `\x7b\x7bresourceId\x7d\x7d`. -/
inductive Placeholder where
  | objName
  | objNamespace
  | userName
  | resourceId
deriving DecidableEq

/-- Maps a placeholder spelling from a template string to the placeholder
it denotes; unknown spellings fail (placeholders are validated at rule
load time per the spec). -/
def parsePlaceholder (s : String) : Option Placeholder :=
  if s = "name" then some .objName
  else if s = "namespace" then some .objNamespace
  else if s = "user.name" then some .userName
  else if s = "resourceId" then some .resourceId
  else none

/-- Compiled template segment: a literal character run or a placeholder
(spec §9: templates compile to a sequence of literal/placeholder
segments). -/
inductive TemplateSeg where
  | lit (s : List Char)
  | ph (p : Placeholder)
deriving DecidableEq

/-- Appends the pending literal accumulator (held reversed) as a literal
segment in front of the already-parsed segments. -/
def flushLit (acc : List Char) (segs : List TemplateSeg) : List TemplateSeg :=
  if acc = [] then segs else .lit acc.reverse :: segs

/-- Core segment scanner: in literal mode (`inPh = false`) it accumulates
characters until a double opening brace; in placeholder mode it
accumulates the placeholder spelling until a double closing brace. An
unterminated placeholder or an unknown spelling fails. -/
def segCore : Bool → List Char → List Char → Option (List TemplateSeg)
  | false, [], acc => some (flushLit acc [])
  | false, '{' :: '{' :: rest, acc =>
    (segCore true rest []).map (flushLit acc)
  | false, c :: rest, acc => segCore false rest (c :: acc)
  | true, '}' :: '}' :: rest, acc =>
    match parsePlaceholder (String.mk acc.reverse), segCore false rest [] with
    | some p, some segs => some (.ph p :: segs)
    | _, _ => none
  | true, c :: rest, acc => segCore true rest (c :: acc)
  | true, [], _ => none

/-- Parses a tuple-field subtemplate into segments. -/
def parseSegs (cs : List Char) : Option (List TemplateSeg) :=
  segCore false cs []

/-- Concrete relationship tuple
`resourceType:resourceId#relation@subjectType:subjectId` as stored in the
permission graph. -/
structure RelTuple where
  resourceType : String
  resourceId : String
  relation : String
  subjectType : String
  subjectId : String
deriving DecidableEq

/-- Compiled relationship template: the resource type, relation and
subject type are literal, while the two id positions are segment lists
that may contain placeholders. -/
structure RelTemplate where
  resourceType : String
  resourceIdSegs : List TemplateSeg
  relation : String
  subjectType : String
  subjectIdSegs : List TemplateSeg
deriving DecidableEq

/-- Compiles a template string of the form
`type:idsegs#relation@subjectType:subjectIdSegs` into a `RelTemplate`;
malformed strings fail (load-time validation per the spec). -/
def parseTemplate (t : TemplateString) : Option RelTemplate :=
  match splitOnChar '#' t.data with
  | [resPart, rest] =>
    match splitOnChar '@' rest with
    | [relPart, subjPart] =>
      match splitOnChar ':' resPart, splitOnChar ':' subjPart with
      | [rtype, rid], [stype, sid] =>
        match parseSegs rid, parseSegs sid with
        | some ridSegs, some sidSegs =>
          some ⟨String.mk rtype, ridSegs, String.mk relPart,
                String.mk stype, sidSegs⟩
        | _, _ => none
      | _, _ => none
    | _ => none
  | _ => none

/-- Per-request context available to templates and conditions (spec §3
RequestContext): verb, group/version, resource kind, and the optional
object name, object namespace, authenticated user name and resource id
fields that placeholders can reference. A `none` field makes any template
referencing it fail closed. -/
structure RequestContext where
  verb : String
  groupVersion : String
  resource : String
  objName : Option String
  objNamespace : Option String
  userName : Option String
  resourceId : Option String
deriving DecidableEq

/-- Looks a placeholder up in the request context. -/
def ctxGet (ctx : RequestContext) : Placeholder → Option String
  | .objName => ctx.objName
  | .objNamespace => ctx.objNamespace
  | .userName => ctx.userName
  | .resourceId => ctx.resourceId

/-- Renders a segment list against a request context; fails closed when a
referenced placeholder field is absent (spec §3). -/
def renderSegs (ctx : RequestContext) : List TemplateSeg → Option (List Char)
  | [] => some []
  | .lit s :: rest => (renderSegs ctx rest).map (s ++ ·)
  | .ph p :: rest =>
    match ctxGet ctx p, renderSegs ctx rest with
    | some v, some r => some (v.data ++ r)
    | _, _ => none

/-- Renders a compiled relationship template into a concrete tuple. -/
def renderTemplate (t : RelTemplate) (ctx : RequestContext) :
    Option RelTuple :=
  match renderSegs ctx t.resourceIdSegs, renderSegs ctx t.subjectIdSegs with
  | some rid, some sid =>
    some ⟨t.resourceType, String.mk rid, t.relation, t.subjectType,
          String.mk sid⟩
  | _, _ => none

/-- Compiles and renders a template string in one step. -/
def renderTemplateString (s : TemplateString) (ctx : RequestContext) :
    Option RelTuple :=
  (parseTemplate s).bind (fun t => renderTemplate t ctx)

/-- Modelled from the spec: Rule Matcher match-clause test (§4.1, the
matching code lives in the external spicedb-kubeapi-proxy library) —
exact group/version and resource comparison followed by verb-set
membership. -/
def matchApplies (m : RuleMatch) (ctx : RequestContext) : Bool :=
  m.groupVersion == ctx.groupVersion && m.resource == ctx.resource &&
    m.verbs.contains ctx.verb

/-- Modelled from the spec: a rule applies when one of its match clauses
applies (§4.1). -/
def ruleApplies (r : RuleSpec) (ctx : RequestContext) : Bool :=
  r.matchClauses.any (fun m => matchApplies m ctx)

/-- Modelled from the spec: all rules of the immutable table that apply to
the request, in table order (§4.1). -/
def matchingRules (table : List RuleSpec) (ctx : RequestContext) :
    List RuleSpec :=
  table.filter (fun r => ruleApplies r ctx)

/-- Authorization decision of the dispatcher. -/
inductive Decision where
  | allow
  | deny
deriving DecidableEq

/-- Modelled from the spec: evaluation of one check template (§4.3, §4.4)
— render the template against the context and ask the permission graph
(the `check` oracle); a template that fails to render denies (fail
closed). -/
def evalCheckTemplate (check : RelTuple → Bool) (ctx : RequestContext)
    (t : TemplateString) : Bool :=
  match renderTemplateString t ctx with
  | some tup => check tup
  | none => false

/-- Modelled from the spec: dispatcher decision for a request (§4.1) — if
no rule matches the decision is deny (fail closed, no default-allow
policy); otherwise every matched rule's checks must all resolve ALLOWED
(logical AND across matched rules). -/
def authorizeRequest (table : List RuleSpec) (check : RelTuple → Bool)
    (ctx : RequestContext) : Decision :=
  match matchingRules table ctx with
  | [] => .deny
  | rs =>
    if rs.all (fun r => r.checks.all (fun t => evalCheckTemplate check ctx t))
    then .allow else .deny

/-- Terminal states of the Transaction Coordinator state machine for one
mutating request (spec §4.5). -/
inductive TxnOutcome where
  | renderFailed
  | preconditionFailed
  | backendFailed
  | committed
deriving DecidableEq

/-- Modelled from the spec: Transaction Coordinator for a create request
(§4.5, the coordinator lives in the external spicedb-kubeapi-proxy
library). The permission graph is the list of committed relationship
tuples. Preconditions are submitted without committing any relationship
change; if they fail the backend is never touched; the relationship
writes rendered from the update templates are committed only after the
backend confirms the create. `preOk` and `backendOk` are the outcomes of
the two external calls. -/
def runCreateTransaction (creates : List TemplateString)
    (ctx : RequestContext) (graph : List RelTuple)
    (preOk backendOk : Bool) : TxnOutcome × List RelTuple :=
  match creates.mapM (fun t => renderTemplateString t ctx) with
  | none => (.renderFailed, graph)
  | some tuples =>
    if preOk = false then (.preconditionFailed, graph)
    else if backendOk = false then (.backendFailed, graph)
    else (.committed, graph ++ tuples)

/-- Modelled from the spec: the create-relationship templates of every
rule matching the request, combined by union across matched rules
(§4.1). -/
def createTemplatesFor (table : List RuleSpec) (ctx : RequestContext) :
    List TemplateString :=
  ((matchingRules table ctx).map
    (fun r => r.update.createRelationships)).flatten

/-- Modelled from the spec: dispatch of a create request through the
Transaction Coordinator using the templates of the matching rules. -/
def dispatchCreate (table : List RuleSpec) (ctx : RequestContext)
    (graph : List RelTuple) (preOk backendOk : Bool) :
    TxnOutcome × List RelTuple :=
  runCreateTransaction (createTemplatesFor table ctx) ctx graph preOk
    backendOk

/-- Modelled from the spec: Resource Filterer pre-filter for list requests
(§4.4). `lookupIds` is the resource-id set returned by the permission
graph Lookup; backend items are (resourceId, payload) pairs. An empty
lookup result short-circuits to an empty list without calling the backend
(first component records whether the backend was called). -/
def preFilterList {α : Type} (lookupIds : List String)
    (backendItems : List (String × α)) : Bool × List (String × α) :=
  if lookupIds.isEmpty then (false, [])
  else (true, backendItems.filter (fun it => lookupIds.contains it.1))

/-- Modelled from the spec: watch-stream filter (§4.4) — events are
decided independently, in arrival order; a denied event is dropped and
the stream continues; an allowed event is forwarded immediately. -/
def runWatchFilter {α : Type} (allowed : α → Bool) : List α → List α
  | [] => []
  | e :: es =>
    if allowed e then e :: runWatchFilter allowed es
    else runWatchFilter allowed es

/-- Membership test for a relationship tuple in the permission graph. -/
def hasRelation (graph : List RelTuple)
    (rt rid rel st sid : String) : Bool :=
  decide (RelTuple.mk rt rid rel st sid ∈ graph)

/-- Permission evaluation for the `pod` definition of the bootstrap schema
configured in `NewSpiceDBKubeProxy`: `edit = creator` and
`view = viewer + creator`; relation names themselves also check as direct
relationships. -/
def podPermission (graph : List RelTuple) (podId perm userId : String) :
    Bool :=
  if perm = "edit" then hasRelation graph "pod" podId "creator" "user" userId
  else if perm = "view" then
    hasRelation graph "pod" podId "viewer" "user" userId ||
      hasRelation graph "pod" podId "creator" "user" userId
  else hasRelation graph "pod" podId perm "user" userId

/-- Permission evaluation for the `namespace` definition of the bootstrap
schema configured in `NewSpiceDBKubeProxy`: `admin = creator`,
`edit = creator`, `view = viewer + creator`, `no_one_at_all = nil`. -/
def namespacePermission (graph : List RelTuple)
    (nsId perm userId : String) : Bool :=
  if perm = "admin" ∨ perm = "edit" then
    hasRelation graph "namespace" nsId "creator" "user" userId
  else if perm = "view" then
    hasRelation graph "namespace" nsId "viewer" "user" userId ||
      hasRelation graph "namespace" nsId "creator" "user" userId
  else if perm = "no_one_at_all" then false
  else hasRelation graph "namespace" nsId perm "user" userId

/-- Check oracle induced by a permission graph under the bootstrap schema:
evaluates a rendered check tuple for pod and namespace resources with
user subjects; anything outside the schema is denied. -/
def evalCheck (graph : List RelTuple) (t : RelTuple) : Bool :=
  if t.resourceType = "pod" ∧ t.subjectType = "user" then
    podPermission graph t.resourceId t.relation t.subjectId
  else if t.resourceType = "namespace" ∧ t.subjectType = "user" then
    namespacePermission graph t.resourceId t.relation t.subjectId
  else false

/-- Relationship templates (checks and update creates) configured in the
rule table; pre-filter lookup templates are excluded, since their `$`
position is filled by the lookup and not by the request context. -/
def configuredTemplates : List TemplateString :=
  (ruleConfigs.map
    (fun r => r.checks ++ r.update.createRelationships)).flatten

/-- Placeholders declared by a compiled template, in order of
occurrence. -/
def declaredPlaceholders (t : RelTemplate) : List Placeholder :=
  (t.resourceIdSegs ++ t.subjectIdSegs).filterMap
    (fun s => match s with | .ph p => some p | .lit _ => none)

/-- Re-extracts a declared placeholder's bound value from a rendered
tuple, for templates whose id positions are single placeholders (the
shape of every configured template). -/
def extractPlaceholder (t : RelTemplate) (r : RelTuple)
    (p : Placeholder) : Option String :=
  if t.resourceIdSegs = [.ph p] then some r.resourceId
  else if t.subjectIdSegs = [.ph p] then some r.subjectId
  else none

/-- C9: for every input string, `sanitizeUserName` returns the fourth
colon-separated segment when the input starts with
`system:serviceaccount:` and splits into at least four colon-separated
parts, and otherwise returns the input unchanged; in particular it never
rewrites characters of a non-service-account name (its output is always
either the input itself or a verbatim colon-segment of the input), as
shown also on concrete inputs. -/
theorem sanitizeUserName_spec (s : String) :
    (sanitizeUserName s =
      if charsStartWith "system:serviceaccount:".data s.data
          ∧ 4 ≤ (splitOnChar ':' s.data).length
       then String.mk ((splitOnChar ':' s.data).getD 3 [])
       else s)
    ∧ (sanitizeUserName s = s ∨
        ∃ p ∈ splitOnChar ':' s.data, sanitizeUserName s = String.mk p)
    ∧ sanitizeUserName "system:serviceaccount:spicedb-proxy:testuser"
        = "testuser"
    ∧ sanitizeUserName "kube:admin" = "kube:admin"
    ∧ sanitizeUserName "john.doe@example.com" = "john.doe@example.com" := by
  refine ⟨?_, ?_, by decide, by decide, by decide⟩
  · simp only [sanitizeUserName]
    split_ifs with h1 h2 h3 h4 <;> simp_all
  · simp only [sanitizeUserName]
    split_ifs with h1 h2
    · right
      refine ⟨(splitOnChar ':' s.data).getD 3 [], ?_, rfl⟩
      rw [List.getD_eq_getElem _ _ (by omega)]
      exact List.getElem_mem _
    · left; rfl
    · left; rfl

/-- C6: for every watch connection, the forwarded event sequence is a
subsequence of the raw backend event sequence in the backend's original
relative order (it equals the arrival-order filter of the allowed
events), a denied event is omitted without terminating the stream, and an
allowed event is forwarded. -/
theorem runWatchFilter_spec {α : Type} (allowed : α → Bool)
    (events : List α) :
    List.Sublist (runWatchFilter allowed events) events
    ∧ runWatchFilter allowed events = events.filter allowed
    ∧ (∀ (e : α) (es : List α), allowed e = false →
        runWatchFilter allowed (e :: es) = runWatchFilter allowed es)
    ∧ (∀ (e : α) (es : List α), allowed e = true →
        runWatchFilter allowed (e :: es) = e :: runWatchFilter allowed es) := by
  have hf : ∀ l : List α, runWatchFilter allowed l = l.filter allowed := by
    intro l
    induction l with
    | nil => rfl
    | cons e es ih =>
      rw [runWatchFilter, List.filter_cons, ih]
  refine ⟨?_, hf events, ?_, ?_⟩
  · rw [hf events]
    exact List.filter_sublist _
  · intro e es h
    rw [runWatchFilter, if_neg (by simp [h])]
  · intro e es h
    rw [runWatchFilter, if_pos h]

/-- Closed instance of the C6 theorem: on the concrete stream
`[3, 2, 4]` with the evenness decision, the denied head event `3` is
dropped and the stream continues. -/
theorem runWatchFilter_spec_witness :
    runWatchFilter (fun n : Nat => decide (n % 2 = 0)) (3 :: [2, 4])
      = runWatchFilter (fun n : Nat => decide (n % 2 = 0)) [2, 4] :=
  (runWatchFilter_spec (fun n : Nat => decide (n % 2 = 0)) [2, 4]).2.2.1
    3 [2, 4] (by decide)

/-- C5: for every list request with a pre-filter, the returned list is
exactly the backend items whose resource ids appear in the lookup result,
in the backend's original relative order, with an empty lookup
short-circuiting before the backend is called; the concrete lookup
`{a, c}` over backend universe `{a, b, c}` yields exactly items a and c
in order. -/
theorem preFilterList_spec {α : Type} (lookupIds : List String)
    (items : List (String × α)) :
    ((preFilterList lookupIds items).2
        = items.filter (fun it => lookupIds.contains it.1))
    ∧ List.Sublist (preFilterList lookupIds items).2 items
    ∧ (∀ it, it ∈ (preFilterList lookupIds items).2 ↔
        it ∈ items ∧ lookupIds.contains it.1 = true)
    ∧ (lookupIds.isEmpty = true → (preFilterList lookupIds items).1 = false)
    ∧ (preFilterList ["a", "c"]
        [("a", (1 : Nat)), ("b", 2), ("c", 3)]).2 = [("a", 1), ("c", 3)] := by
  have hfil : (preFilterList lookupIds items).2
      = items.filter (fun it => lookupIds.contains it.1) := by
    rw [preFilterList]
    split_ifs with h
    · rw [List.isEmpty_iff] at h
      subst h
      simp
    · rfl
  refine ⟨hfil, ?_, ?_, ?_, by decide⟩
  · rw [hfil]
    exact List.filter_sublist _
  · intro it
    rw [hfil]
    simp [List.mem_filter]
  · intro h
    rw [preFilterList, if_pos h]

/-- Closed instance of the C5 theorem: an empty lookup result
short-circuits without calling the backend. -/
theorem preFilterList_spec_witness :
    (preFilterList ([] : List String) [("a", (1 : Nat))]).1 = false :=
  (preFilterList_spec [] [("a", (1 : Nat))]).2.2.2.1 (by decide)

/-- Request context of a pod-create request with the given object name,
namespace and authenticated user name. -/
def ctxPodCreate (n ns u : String) : RequestContext :=
  ⟨"create", "v1", "pods", some n, some ns, some u, none⟩

/-- C2: for every create request, when the backend call fails no
relationship tuple rendered from the update templates is committed — the
graph after the failed transaction equals the graph before, both for an
arbitrary template list, for every configured rule, and for the full
dispatch over the configured rule table. -/
theorem createTxn_backendFailure_noCommit (creates : List TemplateString)
    (ctx : RequestContext) (graph : List RelTuple) (preOk : Bool) :
    (runCreateTransaction creates ctx graph preOk false).2 = graph
    ∧ (runCreateTransaction creates ctx graph preOk false).1 ≠ .committed
    ∧ (∀ r : RuleSpec, r ∈ ruleConfigs →
        (runCreateTransaction r.update.createRelationships ctx graph preOk
          false).2 = graph)
    ∧ (dispatchCreate ruleConfigs ctx graph preOk false).2 = graph := by
  have key : ∀ cs : List TemplateString,
      (runCreateTransaction cs ctx graph preOk false).2 = graph
      ∧ (runCreateTransaction cs ctx graph preOk false).1 ≠ .committed := by
    intro cs
    rw [runCreateTransaction]
    cases cs.mapM (fun t => renderTemplateString t ctx) with
    | none => exact ⟨rfl, by simp⟩
    | some tuples => cases preOk <;> simp
  exact ⟨(key creates).1, (key creates).2, fun r _ => (key _).1, (key _).1⟩

/-- Closed instance of the C2 theorem: a failed backend create under the
configured pod-create rule leaves the empty graph empty. -/
theorem createTxn_backendFailure_noCommit_witness :
    (runCreateTransaction podCreateRule.update.createRelationships
      (ctxPodCreate "nginx" "default" "alice") [] true false).2 = [] :=
  (createTxn_backendFailure_noCommit podCreateRule.update.createRelationships
      (ctxPodCreate "nginx" "default" "alice") [] true).2.2.1
    podCreateRule (by decide)

/-- C3: for every pod create request the backend confirms as successful,
the permission graph afterwards contains the creator tuple rendered from
the configured pod-create rule's update templates bound to the request
context; in particular, when user alice creates pod nginx and the backend
create succeeds, the graph contains `pod:nginx#creator@user:alice`. -/
theorem podCreate_success_createsCreatorTuple (n ns u : String)
    (graph : List RelTuple) :
    (dispatchCreate ruleConfigs (ctxPodCreate n ns u) graph true true).1
      = .committed
    ∧ (dispatchCreate ruleConfigs (ctxPodCreate n ns u) graph true true).2
      = graph ++ [⟨"pod", n, "creator", "user", u⟩,
                  ⟨"pod", n, "namespace", "namespace", ns⟩]
    ∧ RelTuple.mk "pod" n "creator" "user" u
        ∈ (dispatchCreate ruleConfigs (ctxPodCreate n ns u) graph true
            true).2
    ∧ RelTuple.mk "pod" "nginx" "creator" "user" "alice"
        ∈ (dispatchCreate ruleConfigs
            (ctxPodCreate "nginx" "default" "alice") [] true true).2 := by
  have h2 : (dispatchCreate ruleConfigs (ctxPodCreate n ns u) graph true
      true).2
      = graph ++ [⟨"pod", String.mk (n.data ++ []), "creator", "user",
                   String.mk (u.data ++ [])⟩,
                  ⟨"pod", String.mk (n.data ++ []), "namespace", "namespace",
                   String.mk (ns.data ++ [])⟩] := rfl
  have hmk : ∀ s : String, String.mk (s.data ++ []) = s := by
    intro s
    rw [List.append_nil, stringMkData]
  rw [hmk, hmk, hmk] at h2
  refine ⟨rfl, h2, ?_, by decide⟩
  rw [h2]
  simp

/-- C1: every request whose (group/version, resource, verb) triple matches
no rule of the configured table is denied, with no default-allow policy;
and the table covers exactly namespaces with verbs create/get/list and
pods with verbs create/get/list/delete. -/
theorem noMatch_defaultDeny (ctx : RequestContext)
    (check : RelTuple → Bool) :
    (matchingRules ruleConfigs ctx = [] →
      authorizeRequest ruleConfigs check ctx = .deny)
    ∧ (matchingRules ruleConfigs ctx ≠ [] ↔
        (ctx.groupVersion = "v1" ∧ ctx.resource = "namespaces" ∧
          (ctx.verb = "create" ∨ ctx.verb = "get" ∨ ctx.verb = "list")) ∨
        (ctx.groupVersion = "v1" ∧ ctx.resource = "pods" ∧
          (ctx.verb = "create" ∨ ctx.verb = "get" ∨ ctx.verb = "list" ∨
            ctx.verb = "delete"))) := by
  constructor
  · intro h
    rw [authorizeRequest, h]
  · rw [matchingRules, Ne, List.filter_eq_nil_iff]
    push_neg
    constructor
    · rintro ⟨r, hr, happ⟩
      simp only [ruleConfigs, List.mem_cons, List.not_mem_nil, or_false]
        at hr
      rcases hr with h | h | h | h | h <;> subst h <;>
        simp only [nsCreateRule, nsGetRule, nsListRule, podCreateRule,
          podReadDeleteRule, ruleApplies, List.any_cons, List.any_nil,
          Bool.or_false, matchApplies, Bool.and_eq_true, beq_iff_eq,
          List.contains, List.elem_iff, List.mem_cons, List.not_mem_nil,
          or_false] at happ <;>
        tauto
    · intro h
      rcases h with ⟨hgv, hres, hverb⟩ | ⟨hgv, hres, hverb⟩
      · rcases hverb with hv | hv | hv
        · exact ⟨nsCreateRule, by simp [ruleConfigs], by
            simp [nsCreateRule, ruleApplies, matchApplies, hgv, hres, hv,
              List.contains, List.elem_iff]⟩
        · exact ⟨nsGetRule, by simp [ruleConfigs], by
            simp [nsGetRule, ruleApplies, matchApplies, hgv, hres, hv,
              List.contains, List.elem_iff]⟩
        · exact ⟨nsListRule, by simp [ruleConfigs], by
            simp [nsListRule, ruleApplies, matchApplies, hgv, hres, hv,
              List.contains, List.elem_iff]⟩
      · rcases hverb with hv | hv | hv | hv
        · exact ⟨podCreateRule, by simp [ruleConfigs], by
            simp [podCreateRule, ruleApplies, matchApplies, hgv, hres, hv,
              List.contains, List.elem_iff]⟩
        all_goals exact ⟨podReadDeleteRule, by simp [ruleConfigs], by
          simp [podReadDeleteRule, ruleApplies, matchApplies, hgv, hres, hv,
            List.contains, List.elem_iff]⟩

/-- Closed instance of the C1 theorem: a secrets get request matches no
configured rule and is denied even under a check oracle that always
allows. -/
theorem noMatch_defaultDeny_witness :
    authorizeRequest ruleConfigs (fun _ => true)
      ⟨"get", "v1", "secrets", some "s1", none, some "alice", none⟩
      = .deny :=
  (noMatch_defaultDeny
    ⟨"get", "v1", "secrets", some "s1", none, some "alice", none⟩
    (fun _ => true)).1 (by decide)

/-- Request context of a pod-get request with the given object name and
authenticated user name. -/
def ctxPodGet (n u : String) : RequestContext :=
  ⟨"get", "v1", "pods", some n, none, some u, none⟩

/-- C4 counterexample: for the concrete pod-get request (pod nginx, user
bob), the matched rule's check template is not
`pod:\x7b\x7bname\x7d\x7d#view@user:\x7b\x7buser.name\x7d\x7d` — the
configured rule checks the edit permission instead. -/
theorem podGetCheck_not_viewTemplate :
    ¬ ((matchingRules ruleConfigs (ctxPodGet "nginx" "bob")).map
        RuleSpec.checks
        = [["pod:\x7b\x7bname\x7d\x7d#view@user:\x7b\x7buser.name\x7d\x7d"]]) := by
  decide

/-- C4 (amended): for every get request on a pod, the matched rule's check
is the template
`pod:\x7b\x7bname\x7d\x7d#edit@user:\x7b\x7buser.name\x7d\x7d`, so a user
with no creator relation on that pod (hence neither the edit nor the view
permission under the bootstrap schema) is denied. -/
theorem podGet_editCheck_denies (n u : String) (graph : List RelTuple)
    (h : RelTuple.mk "pod" n "creator" "user" u ∉ graph) :
    ((matchingRules ruleConfigs (ctxPodGet n u)).map RuleSpec.checks
      = [["pod:\x7b\x7bname\x7d\x7d#edit@user:\x7b\x7buser.name\x7d\x7d"]])
    ∧ authorizeRequest ruleConfigs (evalCheck graph) (ctxPodGet n u)
      = .deny := by
  have hmk : ∀ s : String, String.mk (s.data ++ []) = s := by
    intro s
    rw [List.append_nil, stringMkData]
  have hb : hasRelation graph "pod" n "creator" "user" u = false := by
    rw [hasRelation]
    exact decide_eq_false h
  have h2 : evalCheckTemplate (evalCheck graph) (ctxPodGet n u)
      "pod:\x7b\x7bname\x7d\x7d#edit@user:\x7b\x7buser.name\x7d\x7d"
      = hasRelation graph "pod" (String.mk (n.data ++ [])) "creator" "user"
          (String.mk (u.data ++ [])) := rfl
  have hall : ([podReadDeleteRule].all
      (fun r => r.checks.all
        (fun t => evalCheckTemplate (evalCheck graph) (ctxPodGet n u) t)))
      = false := by
    simp only [List.all_cons, List.all_nil, Bool.and_true, podReadDeleteRule]
    rw [h2, hmk, hmk, hb]
  have hfin : authorizeRequest ruleConfigs (evalCheck graph) (ctxPodGet n u)
      = if ([podReadDeleteRule].all
          (fun r => r.checks.all
            (fun t => evalCheckTemplate (evalCheck graph) (ctxPodGet n u) t)))
        then Decision.allow else Decision.deny := rfl
  refine ⟨rfl, ?_⟩
  rw [hfin, hall]
  rfl

/-- Closed instance of the C4 amended theorem: user bob, with no
relationship at all in the empty graph, is denied a get on pod nginx. -/
theorem podGet_editCheck_denies_witness :
    authorizeRequest ruleConfigs (evalCheck []) (ctxPodGet "nginx" "bob")
      = .deny :=
  (podGet_editCheck_denies "nginx" "bob" [] (by decide)).2

/-- Strings with equal character data are equal. -/
theorem stringDataInjective {a b : String} (h : a.data = b.data) :
    a = b := by
  rw [← stringMkData a, ← stringMkData b, h]

/-- Round-trip and injectivity for a template whose two id positions are
single distinct placeholders — the shape of every configured relationship
template. -/
theorem singletonPhRoundtrip (rt rel st : String) (p1 p2 : Placeholder)
    (hne : p1 ≠ p2) (ctx ctx' : RequestContext) (r r' : RelTuple)
    (h : renderTemplate ⟨rt, [.ph p1], rel, st, [.ph p2]⟩ ctx = some r)
    (h' : renderTemplate ⟨rt, [.ph p1], rel, st, [.ph p2]⟩ ctx' = some r') :
    (∀ p ∈ declaredPlaceholders ⟨rt, [.ph p1], rel, st, [.ph p2]⟩,
      extractPlaceholder ⟨rt, [.ph p1], rel, st, [.ph p2]⟩ r p
        = ctxGet ctx p)
    ∧ (r = r' →
        ∀ p ∈ declaredPlaceholders ⟨rt, [.ph p1], rel, st, [.ph p2]⟩,
          ctxGet ctx p = ctxGet ctx' p) := by
  rcases hv1 : ctxGet ctx p1 with _ | v1 <;>
    rcases hv2 : ctxGet ctx p2 with _ | v2 <;>
    simp only [renderTemplate, renderSegs, hv1, hv2, List.append_nil,
      reduceCtorEq, Option.some.injEq] at h
  rcases hw1 : ctxGet ctx' p1 with _ | w1 <;>
    rcases hw2 : ctxGet ctx' p2 with _ | w2 <;>
    simp only [renderTemplate, renderSegs, hw1, hw2, List.append_nil,
      reduceCtorEq, Option.some.injEq] at h'
  subst h
  subst h'
  have hdecl : declaredPlaceholders
      ⟨rt, [TemplateSeg.ph p1], rel, st, [TemplateSeg.ph p2]⟩ = [p1, p2] :=
    rfl
  constructor
  · intro p hp
    rw [hdecl] at hp
    rcases List.mem_pair.mp hp with hpp | hpp <;> subst hpp
    · rw [extractPlaceholder, if_pos rfl, stringMkData, hv1]
    · rw [extractPlaceholder,
        if_neg (fun hh => hne (by simpa using hh)), if_pos rfl,
        stringMkData, hv2]
  · intro hrr p hp
    rw [hdecl] at hp
    have h1 : v1 = w1 := stringDataInjective
      (congrArg String.data (congrArg RelTuple.resourceId hrr))
    have h2 : v2 = w2 := stringDataInjective
      (congrArg String.data (congrArg RelTuple.subjectId hrr))
    rcases List.mem_pair.mp hp with hpp | hpp <;> subst hpp
    · rw [hv1, hw1, h1]
    · rw [hv2, hw2, h2]

/-- C7: for every relationship template configured in the rule table and
every pair of contexts that render it successfully, re-extracting the
declared placeholder fields from the rendered tuple yields the original
context values, and rendering is injective with respect to the declared
placeholders. -/
theorem configuredTemplate_roundtrip :
    ∀ ts ∈ configuredTemplates, ∀ (ctx ctx' : RequestContext)
      (t : RelTemplate) (r r' : RelTuple),
      parseTemplate ts = some t →
      renderTemplate t ctx = some r →
      renderTemplate t ctx' = some r' →
      (∀ p ∈ declaredPlaceholders t,
        extractPlaceholder t r p = ctxGet ctx p)
      ∧ (r = r' → ∀ p ∈ declaredPlaceholders t,
          ctxGet ctx p = ctxGet ctx' p) := by
  intro ts hts ctx ctx' t r r' hp h h'
  have hconf : configuredTemplates =
      ["namespace:\x7b\x7bname\x7d\x7d#creator@user:\x7b\x7buser.name\x7d\x7d",
       "namespace:\x7b\x7bname\x7d\x7d#view@user:\x7b\x7buser.name\x7d\x7d",
       "pod:\x7b\x7bname\x7d\x7d#creator@user:\x7b\x7buser.name\x7d\x7d",
       "pod:\x7b\x7bname\x7d\x7d#namespace@namespace:\x7b\x7bnamespace\x7d\x7d",
       "pod:\x7b\x7bname\x7d\x7d#edit@user:\x7b\x7buser.name\x7d\x7d"] := rfl
  rw [hconf] at hts
  simp only [List.mem_cons, List.not_mem_nil, or_false] at hts
  rcases hts with h1 | h1 | h1 | h1 | h1 <;> subst h1
  · have ht : t = ⟨"namespace", [.ph .objName], "creator", "user",
        [.ph .userName]⟩ := by
      rw [show parseTemplate
          "namespace:\x7b\x7bname\x7d\x7d#creator@user:\x7b\x7buser.name\x7d\x7d"
          = some ⟨"namespace", [.ph .objName], "creator", "user",
              [.ph .userName]⟩ from rfl] at hp
      exact (Option.some.inj hp).symm
    subst ht
    exact singletonPhRoundtrip _ _ _ _ _ (by decide) ctx ctx' r r' h h'
  · have ht : t = ⟨"namespace", [.ph .objName], "view", "user",
        [.ph .userName]⟩ := by
      rw [show parseTemplate
          "namespace:\x7b\x7bname\x7d\x7d#view@user:\x7b\x7buser.name\x7d\x7d"
          = some ⟨"namespace", [.ph .objName], "view", "user",
              [.ph .userName]⟩ from rfl] at hp
      exact (Option.some.inj hp).symm
    subst ht
    exact singletonPhRoundtrip _ _ _ _ _ (by decide) ctx ctx' r r' h h'
  · have ht : t = ⟨"pod", [.ph .objName], "creator", "user",
        [.ph .userName]⟩ := by
      rw [show parseTemplate
          "pod:\x7b\x7bname\x7d\x7d#creator@user:\x7b\x7buser.name\x7d\x7d"
          = some ⟨"pod", [.ph .objName], "creator", "user",
              [.ph .userName]⟩ from rfl] at hp
      exact (Option.some.inj hp).symm
    subst ht
    exact singletonPhRoundtrip _ _ _ _ _ (by decide) ctx ctx' r r' h h'
  · have ht : t = ⟨"pod", [.ph .objName], "namespace", "namespace",
        [.ph .objNamespace]⟩ := by
      rw [show parseTemplate
          "pod:\x7b\x7bname\x7d\x7d#namespace@namespace:\x7b\x7bnamespace\x7d\x7d"
          = some ⟨"pod", [.ph .objName], "namespace", "namespace",
              [.ph .objNamespace]⟩ from rfl] at hp
      exact (Option.some.inj hp).symm
    subst ht
    exact singletonPhRoundtrip _ _ _ _ _ (by decide) ctx ctx' r r' h h'
  · have ht : t = ⟨"pod", [.ph .objName], "edit", "user",
        [.ph .userName]⟩ := by
      rw [show parseTemplate
          "pod:\x7b\x7bname\x7d\x7d#edit@user:\x7b\x7buser.name\x7d\x7d"
          = some ⟨"pod", [.ph .objName], "edit", "user",
              [.ph .userName]⟩ from rfl] at hp
      exact (Option.some.inj hp).symm
    subst ht
    exact singletonPhRoundtrip _ _ _ _ _ (by decide) ctx ctx' r r' h h'

/-- Closed instance of the C7 theorem: extracting the name placeholder
from the tuple rendered by the pod-creator template at the nginx/alice
context recovers the pod name. -/
theorem configuredTemplate_roundtrip_witness :
    extractPlaceholder
      ⟨"pod", [.ph .objName], "creator", "user", [.ph .userName]⟩
      ⟨"pod", "nginx", "creator", "user", "alice"⟩ .objName
      = ctxGet (ctxPodCreate "nginx" "default" "alice") .objName :=
  (configuredTemplate_roundtrip
    "pod:\x7b\x7bname\x7d\x7d#creator@user:\x7b\x7buser.name\x7d\x7d"
    (by decide)
    (ctxPodCreate "nginx" "default" "alice")
    (ctxPodCreate "nginx" "default" "alice")
    ⟨"pod", [.ph .objName], "creator", "user", [.ph .userName]⟩
    ⟨"pod", "nginx", "creator", "user", "alice"⟩
    ⟨"pod", "nginx", "creator", "user", "alice"⟩
    (by decide) (by decide) (by decide)).1 .objName (by decide)

/-- Character lists starting with the Bearer marker are nonempty. -/
theorem charsStartWithBearer_ne_nil (cs : List Char)
    (h : charsStartWith "Bearer ".data cs = true) : cs ≠ [] := by
  intro hnil
  rw [hnil] at h
  exact absurd h (by decide)

/-- C8: `AuthenticateRequest` returns Authenticated=true with a user or
Authenticated=false with an error, and tries the three methods in fixed
priority order — a Bearer authorization header is decided solely by token
review; otherwise a TLS peer certificate is used; otherwise a non-empty
X-Remote-User header authenticates with UID equal to the username and
groups the comma-split of X-Remote-Groups; with none of the three,
authentication fails. -/
theorem authenticateRequest_spec (review : String → TokenReviewOutcome)
    (r : HttpRequest) :
    ((authenticateRequest review r).authenticated = true →
      (authenticateRequest review r).user ≠ none)
    ∧ ((authenticateRequest review r).authenticated = false →
      (authenticateRequest review r).error ≠ none)
    ∧ (charsStartWith "Bearer ".data r.authorizationHeader.data = true →
      authenticateRequest review r
        = authenticateToken review
            (String.mk (r.authorizationHeader.data.drop 7)))
    ∧ (∀ cert rest,
        charsStartWith "Bearer ".data r.authorizationHeader.data = false →
        r.tlsPeerCertificates = some (cert :: rest) →
        authenticateRequest review r = authenticateCertificate cert)
    ∧ (charsStartWith "Bearer ".data r.authorizationHeader.data = false →
      (r.tlsPeerCertificates = none ∨ r.tlsPeerCertificates = some []) →
      r.xRemoteUser ≠ "" →
      authenticateRequest review r
        = ⟨true, some ⟨r.xRemoteUser,
            (splitOnChar ',' r.xRemoteGroups.data).map String.mk,
            r.xRemoteUser⟩, none⟩)
    ∧ (charsStartWith "Bearer ".data r.authorizationHeader.data = false →
      (r.tlsPeerCertificates = none ∨ r.tlsPeerCertificates = some []) →
      r.xRemoteUser = "" →
      authenticateRequest review r
        = ⟨false, none, some "no valid authentication method found"⟩) := by
  by_cases hb :
      charsStartWith "Bearer ".data r.authorizationHeader.data = true
  · have hne : r.authorizationHeader ≠ "" := by
      intro he
      exact charsStartWithBearer_ne_nil _ hb (by rw [he])
    have hreq : authenticateRequest review r
        = authenticateToken review
            (String.mk (r.authorizationHeader.data.drop 7)) := by
      rw [authenticateRequest, if_pos ⟨hne, hb⟩]
    refine ⟨?_, ?_, fun _ => hreq, ?_, ?_, ?_⟩
    · rw [hreq, authenticateToken]
      cases review (String.mk (r.authorizationHeader.data.drop 7)) <;> simp
    · rw [hreq, authenticateToken]
      cases review (String.mk (r.authorizationHeader.data.drop 7)) <;> simp
    · intro cert rest hb' _
      rw [hb] at hb'
      exact absurd hb' (by decide)
    · intro hb' _ _
      rw [hb] at hb'
      exact absurd hb' (by decide)
    · intro hb' _ _
      rw [hb] at hb'
      exact absurd hb' (by decide)
  · have hcond : ¬(r.authorizationHeader ≠ "" ∧
        charsStartWith "Bearer ".data r.authorizationHeader.data = true) :=
      fun hc => hb hc.2
    rcases htls : r.tlsPeerCertificates with _ | certs
    · have hreq : authenticateRequest review r
          = if r.xRemoteUser ≠ "" then
              ⟨true, some ⟨r.xRemoteUser,
                (splitOnChar ',' r.xRemoteGroups.data).map String.mk,
                r.xRemoteUser⟩, none⟩
            else ⟨false, none, some "no valid authentication method found"⟩ := by
        rw [authenticateRequest, if_neg hcond, htls]
      by_cases hu : r.xRemoteUser = ""
      · rw [if_neg (fun hx => hx hu)] at hreq
        refine ⟨?_, ?_, fun hbt => absurd hbt hb, ?_, ?_, fun _ _ _ => hreq⟩
        · rw [hreq]
          simp
        · rw [hreq]
          simp
        · intro cert rest _ hceq
          exact absurd hceq (by simp)
        · intro _ _ hx
          exact absurd hu hx
      · rw [if_pos hu] at hreq
        refine ⟨?_, ?_, fun hbt => absurd hbt hb, ?_, fun _ _ _ => hreq, ?_⟩
        · rw [hreq]
          simp
        · rw [hreq]
          simp
        · intro cert rest _ hceq
          exact absurd hceq (by simp)
        · intro _ _ hx
          exact absurd hx hu
    · rcases certs with _ | ⟨cert, rest⟩
      · have hreq : authenticateRequest review r
            = if r.xRemoteUser ≠ "" then
                ⟨true, some ⟨r.xRemoteUser,
                  (splitOnChar ',' r.xRemoteGroups.data).map String.mk,
                  r.xRemoteUser⟩, none⟩
              else
                ⟨false, none, some "no valid authentication method found"⟩ := by
          rw [authenticateRequest, if_neg hcond, htls]
        by_cases hu : r.xRemoteUser = ""
        · rw [if_neg (fun hx => hx hu)] at hreq
          refine ⟨?_, ?_, fun hbt => absurd hbt hb, ?_, ?_,
            fun _ _ _ => hreq⟩
          · rw [hreq]
            simp
          · rw [hreq]
            simp
          · intro cert' rest' _ hceq
            simp at hceq
          · intro _ _ hx
            exact absurd hu hx
        · rw [if_pos hu] at hreq
          refine ⟨?_, ?_, fun hbt => absurd hbt hb, ?_,
            fun _ _ _ => hreq, ?_⟩
          · rw [hreq]
            simp
          · rw [hreq]
            simp
          · intro cert' rest' _ hceq
            simp at hceq
          · intro _ _ hx
            exact absurd hx hu
      · have hreq : authenticateRequest review r
            = authenticateCertificate cert := by
          rw [authenticateRequest, if_neg hcond, htls]
        refine ⟨?_, ?_, fun hbt => absurd hbt hb, ?_, ?_, ?_⟩
        · rw [hreq, authenticateCertificate]
          split_ifs <;> simp
        · rw [hreq, authenticateCertificate]
          split_ifs <;> simp
        · intro cert' rest' _ hceq
          have : cert = cert' := by
            injection hceq with hcc
            exact (List.cons.inj hcc).1
          rw [hreq, this]
        · intro _ habs _
          rcases habs with habs | habs <;> simp at habs
        · intro _ habs _
          rcases habs with habs | habs <;> simp at habs

/-- Stub token-review oracle used by the concrete authentication
instance. -/
def tokenReviewStub : String → TokenReviewOutcome :=
  fun _ => .ok ⟨"alice", ["users"], "alice-uid"⟩

/-- Concrete bearer-token request used by the concrete authentication
instance. -/
def bearerRequest : HttpRequest :=
  ⟨"Bearer tok", none, "ignored-user", "g1,g2"⟩

/-- Closed instance of the C8 theorem: a request with a Bearer token is
decided solely by token review even though an X-Remote-User header is
present. -/
theorem authenticateRequest_spec_witness :
    authenticateRequest tokenReviewStub bearerRequest
      = authenticateToken tokenReviewStub
          (String.mk (bearerRequest.authorizationHeader.data.drop 7)) :=
  (authenticateRequest_spec tokenReviewStub bearerRequest).2.2.1 (by decide)

/-- Appending to a nonempty string keeps it nonempty. -/
theorem stringAppendLeftNeEmpty (a b : String) (ha : a ≠ "") :
    a ++ b ≠ "" := by
  intro h
  apply ha
  have hd : a.data ++ b.data = ([] : List Char) := congrArg String.data h
  have hae : a.data = [] := (List.append_eq_nil.mp hd).1
  rw [← stringMkData a, hae]

/-- C10: for every POST to /api/namespaces/create, a failure of any of the
four gates — authentication, JSON decoding, non-empty namespace field,
Kubernetes RBAC — means the backend namespace create is never invoked and
the JSON response has Success=false with a non-empty Error; the backend
is called exactly when all four gates pass, and the error message
identifies the first failing gate in gate order. -/
theorem handleCreateNamespace_spec (inp : CreateNsInput) :
    (((∃ e, inp.authResult = .error e) ∨ inp.decodedBody = none ∨
        (∃ req, inp.decodedBody = some req ∧ req.namespaceName = "") ∨
        inp.rbacResult ≠ .ok true) →
      (handleCreateNamespace inp).backendCall = none
      ∧ (handleCreateNamespace inp).response.success = false
      ∧ (handleCreateNamespace inp).response.error ≠ "")
    ∧ ((handleCreateNamespace inp).backendCall ≠ none ↔
        (∃ u, inp.authResult = .ok u)
        ∧ (∃ req, inp.decodedBody = some req ∧ req.namespaceName ≠ "")
        ∧ inp.rbacResult = .ok true)
    ∧ (∀ e, inp.authResult = .error e →
        (handleCreateNamespace inp).response.error
          = "Authentication failed: " ++ e)
    ∧ (∀ u, inp.authResult = .ok u → inp.decodedBody = none →
        (handleCreateNamespace inp).response.error = "Invalid JSON")
    ∧ (∀ u req, inp.authResult = .ok u → inp.decodedBody = some req →
        req.namespaceName = "" →
        (handleCreateNamespace inp).response.error = "Namespace is required")
    ∧ (∀ u req, inp.authResult = .ok u → inp.decodedBody = some req →
        req.namespaceName ≠ "" → inp.rbacResult = .ok false →
        (handleCreateNamespace inp).response.error
          = "User does not have permission to create namespaces")
    ∧ (∀ u req, inp.authResult = .ok u → inp.decodedBody = some req →
        req.namespaceName ≠ "" → inp.rbacResult = .ok true →
        (handleCreateNamespace inp).backendCall
          = some (sanitizeUserName u.username, req.namespaceName)) := by
  obtain ⟨auth, body, rbac, backend⟩ := inp
  rcases auth with e | u
  · refine ⟨fun _ => ⟨rfl, rfl, ?_⟩, by simp [handleCreateNamespace],
      ?_, ?_, ?_, ?_, ?_⟩
    · exact stringAppendLeftNeEmpty "Authentication failed: " e (by decide)
    · intro e' he
      simp only [Except.error.injEq] at he
      subst he
      rfl
    · intro u' he
      simp at he
    · intro u' req' he
      simp at he
    · intro u' req' he
      simp at he
    · intro u' req' he
      simp at he
  · rcases body with _ | req
    · refine ⟨fun _ => ⟨rfl, rfl, ?_⟩, by simp [handleCreateNamespace],
        ?_, fun _ _ _ => rfl, ?_, ?_, ?_⟩
      · show ("Invalid JSON" : String) ≠ ""
        decide
      · intro e he
        simp at he
      · intro u' req' _ hbody _
        simp at hbody
      · intro u' req' _ hbody
        simp at hbody
      · intro u' req' _ hbody
        simp at hbody
    · by_cases hn : req.namespaceName = ""
      · refine ⟨fun _ => ⟨?_, ?_, ?_⟩, ?_, ?_, ?_, fun _ _ _ _ _ => ?_,
          ?_, ?_⟩
        · simp [handleCreateNamespace, hn]
        · simp [handleCreateNamespace, hn]
        · simp [handleCreateNamespace, hn]
        · simp [handleCreateNamespace, hn]
        · intro e he
          simp at he
        · intro u' he hbody
          simp at hbody
        · simp [handleCreateNamespace, hn]
        · intro u' req' _ hbody hne
          simp only [Option.some.injEq] at hbody
          subst hbody
          exact absurd hn hne
        · intro u' req' _ hbody hne
          simp only [Option.some.injEq] at hbody
          subst hbody
          exact absurd hn hne
      · rcases rbac with e2 | b
        · refine ⟨fun _ => ⟨?_, ?_, ?_⟩, ?_, ?_, ?_, ?_, ?_, ?_⟩
          · simp [handleCreateNamespace, hn]
          · simp [handleCreateNamespace, hn]
          · simp only [handleCreateNamespace, if_neg hn]
            exact stringAppendLeftNeEmpty "Permission check failed: " e2
              (by decide)
          · simp [handleCreateNamespace, hn]
          · intro e he
            simp at he
          · intro u' he hbody
            simp at hbody
          · intro u' req' _ hbody hne
            simp only [Option.some.injEq] at hbody
            subst hbody
            exact absurd hne hn
          · intro u' req' _ _ _ hrb
            simp at hrb
          · intro u' req' _ _ _ hrb
            simp at hrb
        · rcases b with _ | _
          · refine ⟨fun _ => ⟨?_, ?_, ?_⟩, ?_, ?_, ?_, ?_, ?_, ?_⟩
            · simp [handleCreateNamespace, hn]
            · simp [handleCreateNamespace, hn]
            · simp [handleCreateNamespace, hn]
            · simp [handleCreateNamespace, hn]
            · intro e he
              simp at he
            · intro u' he hbody
              simp at hbody
            · intro u' req' _ hbody hne
              simp only [Option.some.injEq] at hbody
              subst hbody
              exact absurd hne hn
            · intro u' req' hu hbody _ _
              simp [handleCreateNamespace, hn]
            · intro u' req' _ _ _ hrb
              simp at hrb
          · refine ⟨fun hgate => ?_, ?_, ?_, ?_, ?_, ?_, ?_⟩
            · rcases hgate with ⟨e, he⟩ | hb | ⟨req', hr, hreq'⟩ | hr
              · simp at he
              · simp at hb
              · simp only [Option.some.injEq] at hr
                subst hr
                exact absurd hreq' hn
              · exact absurd rfl hr
            · constructor
              · intro _
                exact ⟨⟨u, rfl⟩, ⟨req, rfl, hn⟩, rfl⟩
              · intro _
                cases backend <;>
                  simp [handleCreateNamespace, hn]
            · intro e he
              simp at he
            · intro u' he hbody
              simp at hbody
            · intro u' req' _ hbody hne
              simp only [Option.some.injEq] at hbody
              subst hbody
              exact absurd hne hn
            · intro u' req' _ _ _ hrb
              simp at hrb
            · intro u' req' hu hbody _ _
              simp only [Except.ok.injEq] at hu
              simp only [Option.some.injEq] at hbody
              subst hu
              subst hbody
              cases backend <;>
                simp [handleCreateNamespace, hn]

/-- Input with an empty namespace field used by the concrete
namespace-create instance. -/
def emptyNamespaceInput : CreateNsInput :=
  ⟨.ok ⟨"alice", ["users"], "alice-uid"⟩, some ⟨""⟩, .ok true, .ok ()⟩

/-- Closed instance of the C10 theorem: an empty namespace field means the
backend create is never invoked. -/
theorem handleCreateNamespace_spec_witness :
    (handleCreateNamespace emptyNamespaceInput).backendCall = none :=
  ((handleCreateNamespace_spec emptyNamespaceInput).1
    (Or.inr (Or.inr (Or.inl ⟨⟨""⟩, rfl, rfl⟩)))).1

end SpicedbProxyIntegration
